import Mathlib

/-!
# EduPulse — Student Success Analytics: verification of the prediction engine

Shallow embedding of the EduPulse rule-based prediction engine
(`config.py`, `models/predictor.py`, `utils/calculations.py`,
`utils/validators.py`, `components/results.py`) over exact rationals.

Python floats are modelled as `ℚ` (every constant in the code is an exact
decimal); Python's `round(x, 4)` (banker's rounding) is modelled by
`round_half_even`; Python dicts that are iterated are modelled as
association lists in insertion order; code that can raise `KeyError`
returns `Option`.
-/

namespace EduPulse

/-- `config.StudentProfile`: the nine input fields. -/
structure StudentProfile where
  attendance : ℚ
  study_hours : ℚ
  sleep_hours : ℚ
  family_support : String
  extracurricular : String
  previous_grades : String
  financial_status : String
  mental_health : String
  peer_influence : String

/-- `config.WEIGHTS`: category → (factor → weight), in dict insertion order. -/
def WEIGHTS : List (String × List (String × ℚ)) :=
  [("academic_factors",
     [("attendance", 0.25), ("study_hours", 0.20), ("previous_grades", 0.15)]),
   ("wellness_factors",
     [("sleep_hours", 0.15), ("mental_health", 0.10), ("extracurricular", 0.05)]),
   ("support_factors",
     [("family_support", 0.05), ("financial_status", 0.03), ("peer_influence", 0.02)])]

/-- `config.SCORE_MAPPINGS`: categorical factor → (option → score). -/
def SCORE_MAPPINGS : List (String × List (String × ℚ)) :=
  [("family_support", [("Low", 0.3), ("Medium", 0.7), ("High", 1.0)]),
   ("extracurricular", [("None", 0.3), ("Moderate", 0.7), ("High", 1.0)]),
   ("previous_grades", [("Poor", 0.2), ("Average", 0.5), ("Good", 0.8), ("Excellent", 1.0)]),
   ("financial_status", [("Struggling", 0.3), ("Stable", 0.7), ("Comfortable", 1.0)]),
   ("mental_health", [("Poor", 0.2), ("Fair", 0.5), ("Good", 0.8), ("Excellent", 1.0)]),
   ("peer_influence", [("Negative", 0.2), ("Neutral", 0.5), ("Positive", 1.0)])]

/-- One entry of `config.RISK_LEVELS`. -/
structure RiskInfo where
  min : ℚ
  max : ℚ
  label : String
  color : String
  description : String

/-- `config.RISK_LEVELS`, in dict insertion order. -/
def RISK_LEVELS : List (String × RiskInfo) :=
  [("HIGH_RISK",
     ⟨0.0, 0.4, "🟥 High Risk", "#FF6B6B", "Needs immediate intervention"⟩),
   ("MODERATE_RISK",
     ⟨0.4, 0.7, "🟨 Moderate Risk", "#FFD166", "Requires monitoring and support"⟩),
   ("AT_RISK",
     ⟨0.7, 0.85, "🟧 At Risk", "#FFA726", "Below target, needs improvement"⟩),
   ("SUCCESS",
     ⟨0.85, 1.0, "🟩 Success", "#06D6A0", "On track for academic success"⟩)]

/-- Python's `round` to an integer: round half to even (banker's rounding). -/
def round_half_even (x : ℚ) : ℤ :=
  if x - ⌊x⌋ < 1/2 then ⌊x⌋
  else if x - ⌊x⌋ > 1/2 then ⌊x⌋ + 1
  else if ⌊x⌋ % 2 = 0 then ⌊x⌋ else ⌊x⌋ + 1

/-- Python's `round(x, 4)`. -/
def round4 (x : ℚ) : ℚ := (round_half_even (x * 10000) : ℚ) / 10000

/-- `StudentSuccessPredictor.normalize_continuous_value`. -/
def normalize_continuous_value (value min_val max_val : ℚ) : ℚ :=
  if value ≤ min_val then 0.0
  else if value ≥ max_val then 1.0
  else (value - min_val) / (max_val - min_val)

/-- The dict returned by `calculate_factor_scores` (always exactly nine keys). -/
structure FactorScores where
  attendance : ℚ
  study_hours : ℚ
  sleep_hours : ℚ
  family_support : ℚ
  extracurricular : ℚ
  previous_grades : ℚ
  financial_status : ℚ
  mental_health : ℚ
  peer_influence : ℚ

/-- The factor-scores dict as an association list, in the insertion order of
`calculate_factor_scores`. -/
def FactorScores.toList (fs : FactorScores) : List (String × ℚ) :=
  [("attendance", fs.attendance),
   ("study_hours", fs.study_hours),
   ("sleep_hours", fs.sleep_hours),
   ("family_support", fs.family_support),
   ("extracurricular", fs.extracurricular),
   ("previous_grades", fs.previous_grades),
   ("financial_status", fs.financial_status),
   ("mental_health", fs.mental_health),
   ("peer_influence", fs.peer_influence)]

/-- `self.mappings[category][key]`; `none` models a Python `KeyError`. -/
def mappingLookup (category key : String) : Option ℚ :=
  ((SCORE_MAPPINGS.lookup category).getD []).lookup key

/-- `StudentSuccessPredictor.calculate_factor_scores`. -/
def calculate_factor_scores (p : StudentProfile) : Option FactorScores := do
  let fam ← mappingLookup "family_support" p.family_support
  let ext ← mappingLookup "extracurricular" p.extracurricular
  let pg ← mappingLookup "previous_grades" p.previous_grades
  let fin ← mappingLookup "financial_status" p.financial_status
  let mh ← mappingLookup "mental_health" p.mental_health
  let pi ← mappingLookup "peer_influence" p.peer_influence
  pure
    { attendance := normalize_continuous_value p.attendance 60 100
      study_hours := normalize_continuous_value p.study_hours 1 8
      sleep_hours := normalize_continuous_value p.sleep_hours 4 10
      family_support := fam
      extracurricular := ext
      previous_grades := pg
      financial_status := fin
      mental_health := mh
      peer_influence := pi }

/-- `self.weights[category][factor]` (both keys always present in the code). -/
def weightOf (category factor : String) : ℚ :=
  (((WEIGHTS.lookup category).getD []).lookup factor).getD 0

/-- `StudentSuccessPredictor.calculate_weighted_score`: nine explicit
dict accesses, then `round(total_score, 4)`. -/
def calculate_weighted_score (fs : FactorScores) : ℚ :=
  round4
    (fs.attendance * weightOf "academic_factors" "attendance"
     + fs.study_hours * weightOf "academic_factors" "study_hours"
     + fs.previous_grades * weightOf "academic_factors" "previous_grades"
     + fs.sleep_hours * weightOf "wellness_factors" "sleep_hours"
     + fs.mental_health * weightOf "wellness_factors" "mental_health"
     + fs.extracurricular * weightOf "wellness_factors" "extracurricular"
     + fs.family_support * weightOf "support_factors" "family_support"
     + fs.financial_status * weightOf "support_factors" "financial_status"
     + fs.peer_influence * weightOf "support_factors" "peer_influence")

/-- The result dict of `determine_risk_level`. -/
structure RiskResult where
  level : String
  label : String
  color : String
  description : String
  score : ℚ

/-- `StudentSuccessPredictor.determine_risk_level`: first band (in
`RISK_LEVELS` insertion order) with `min <= score < max`, else the
`UNKNOWN` fallback. -/
def determine_risk_level (score : ℚ) : RiskResult :=
  match RISK_LEVELS.find? (fun p => decide (p.2.min ≤ score) && decide (score < p.2.max)) with
  | some (level_key, info) => ⟨level_key, info.label, info.color, info.description, score⟩
  | none => ⟨"UNKNOWN", "❓ Unknown", "#6C757D", "Unable to determine risk level", score⟩

/-- The weight-resolution loop shared by `identify_key_factors` and
`estimate_intervention_impact`: scan the categories, default `0`. -/
def findWeight (factor : String) : ℚ :=
  match WEIGHTS.findSome? (fun category => category.2.lookup factor) with
  | some w => w
  | none => 0

/-- Descending-by-impact comparison used to model the stable
`impacts.sort(key=lambda x: x[2], reverse=True)`. -/
def impactGE (x y : String × ℚ × ℚ) : Prop := y.2.2 ≤ x.2.2

instance : DecidableRel impactGE := fun x y =>
  inferInstanceAs (Decidable (y.2.2 ≤ x.2.2))

instance : IsTotal (String × ℚ × ℚ) impactGE :=
  ⟨fun a b => le_total b.2.2 a.2.2⟩

instance : IsTrans (String × ℚ × ℚ) impactGE :=
  ⟨fun _ _ _ hab hbc => le_trans hbc hab⟩

/-- The `impacts` list built by `identify_key_factors`:
`(factor, score, score * weight)` in input order. -/
def factorImpacts (factor_scores : List (String × ℚ)) : List (String × ℚ × ℚ) :=
  factor_scores.map (fun p => (p.1, p.2, p.2 * findWeight p.1))

/-- `StudentSuccessPredictor.identify_key_factors`: build impacts, stable
sort descending by impact, keep the first three. -/
def identify_key_factors (factor_scores : List (String × ℚ)) : List (String × ℚ × ℚ) :=
  ((factorImpacts factor_scores).insertionSort impactGE).take 3

/-- The result dict of `predict`. -/
structure Prediction where
  success_probability : ℚ
  risk_assessment : RiskResult
  factor_scores : FactorScores
  top_factors : List (String × ℚ × ℚ)
  profile : StudentProfile

/-- `StudentSuccessPredictor.predict`. -/
def predict (p : StudentProfile) : Option Prediction := do
  let fs ← calculate_factor_scores p
  let success_probability := calculate_weighted_score fs
  let risk_assessment := determine_risk_level success_probability
  let top_factors := identify_key_factors fs.toList
  pure ⟨success_probability, risk_assessment, fs, top_factors, p⟩

/-! ## Helper lemmas: Python rounding -/

theorem round_half_even_of_lt_half {x : ℚ} {n : ℤ} (hn : ⌊x⌋ = n) (h : x - n < 1/2) :
    round_half_even x = n := by
  unfold round_half_even
  rw [hn, if_pos h]

theorem round_half_even_of_gt_half {x : ℚ} {n : ℤ} (hn : ⌊x⌋ = n) (h : 1/2 < x - n) :
    round_half_even x = n + 1 := by
  unfold round_half_even
  rw [hn, if_neg (by linarith), if_pos h]

theorem round_half_even_mem {x : ℚ} :
    round_half_even x = ⌊x⌋ ∨ round_half_even x = ⌊x⌋ + 1 := by
  unfold round_half_even
  split_ifs <;> simp

/-- Evaluate `round4` when the scaled value rounds down. -/
theorem round4_eq_down {x : ℚ} {n : ℤ} (h1 : (n : ℚ) ≤ x * 10000)
    (h2 : x * 10000 < n + 1/2) : round4 x = n / 10000 := by
  unfold round4
  rw [round_half_even_of_lt_half (n := n)
    (Int.floor_eq_iff.mpr ⟨h1, by linarith⟩) (by linarith)]

/-- Evaluate `round4` when the scaled value rounds up. -/
theorem round4_eq_up {x : ℚ} {n : ℤ} (h1 : (n : ℚ) + 1/2 < x * 10000)
    (h2 : x * 10000 < n + 1) : round4 x = (n + 1) / 10000 := by
  unfold round4
  rw [round_half_even_of_gt_half (n := n)
    (Int.floor_eq_iff.mpr ⟨by linarith, by linarith⟩) (by linarith)]
  push_cast
  ring

theorem round_half_even_le {x : ℚ} {n : ℤ} (h : x ≤ (n : ℚ)) : round_half_even x ≤ n := by
  have hf : ⌊x⌋ ≤ n := by
    have := Int.floor_mono h
    simpa using this
  rcases round_half_even_mem (x := x) with he | he <;> rw [he]
  · exact hf
  · rcases lt_or_eq_of_le hf with h' | h'
    · omega
    · exfalso
      have hlow : x - ⌊x⌋ < 1/2 := by
        have : x - ⌊x⌋ ≤ 0 := by
          rw [h']
          linarith
        linarith
      unfold round_half_even at he
      rw [if_pos hlow] at he
      omega

theorem le_round_half_even {x : ℚ} {n : ℤ} (h : (n : ℚ) ≤ x) : n ≤ round_half_even x := by
  have hf : n ≤ ⌊x⌋ := Int.le_floor.mpr h
  rcases round_half_even_mem (x := x) with he | he <;> omega

theorem round4_nonneg {x : ℚ} (h : 0 ≤ x) : 0 ≤ round4 x := by
  unfold round4
  have : (0 : ℤ) ≤ round_half_even (x * 10000) :=
    le_round_half_even (by push_cast; linarith)
  positivity

theorem round4_le_one {x : ℚ} (h : x ≤ 1) : round4 x ≤ 1 := by
  unfold round4
  have h1 : round_half_even (x * 10000) ≤ 10000 :=
    round_half_even_le (by push_cast; linarith)
  rw [div_le_one (by norm_num)]
  exact_mod_cast h1

/-! ## Helper lemmas: concrete table lookups (by kernel reduction) -/

theorem weightOf_attendance : weightOf "academic_factors" "attendance" = 0.25 := rfl
theorem weightOf_study_hours : weightOf "academic_factors" "study_hours" = 0.20 := rfl
theorem weightOf_previous_grades : weightOf "academic_factors" "previous_grades" = 0.15 := rfl
theorem weightOf_sleep_hours : weightOf "wellness_factors" "sleep_hours" = 0.15 := rfl
theorem weightOf_mental_health : weightOf "wellness_factors" "mental_health" = 0.10 := rfl
theorem weightOf_extracurricular : weightOf "wellness_factors" "extracurricular" = 0.05 := rfl
theorem weightOf_family_support : weightOf "support_factors" "family_support" = 0.05 := rfl
theorem weightOf_financial_status : weightOf "support_factors" "financial_status" = 0.03 := rfl
theorem weightOf_peer_influence : weightOf "support_factors" "peer_influence" = 0.02 := rfl

theorem findWeight_attendance : findWeight "attendance" = 0.25 := rfl
theorem findWeight_study_hours : findWeight "study_hours" = 0.20 := rfl
theorem findWeight_previous_grades : findWeight "previous_grades" = 0.15 := rfl
theorem findWeight_sleep_hours : findWeight "sleep_hours" = 0.15 := rfl
theorem findWeight_mental_health : findWeight "mental_health" = 0.10 := rfl
theorem findWeight_extracurricular : findWeight "extracurricular" = 0.05 := rfl
theorem findWeight_family_support : findWeight "family_support" = 0.05 := rfl
theorem findWeight_financial_status : findWeight "financial_status" = 0.03 := rfl
theorem findWeight_peer_influence : findWeight "peer_influence" = 0.02 := rfl

theorem mapping_family_High : mappingLookup "family_support" "High" = some 1.0 := rfl
theorem mapping_family_Low : mappingLookup "family_support" "Low" = some 0.3 := rfl
theorem mapping_extra_Moderate : mappingLookup "extracurricular" "Moderate" = some 0.7 := rfl
theorem mapping_extra_None : mappingLookup "extracurricular" "None" = some 0.3 := rfl
theorem mapping_grades_Good : mappingLookup "previous_grades" "Good" = some 0.8 := rfl
theorem mapping_grades_Poor : mappingLookup "previous_grades" "Poor" = some 0.2 := rfl
theorem mapping_financial_Stable : mappingLookup "financial_status" "Stable" = some 0.7 := rfl
theorem mapping_financial_Struggling :
    mappingLookup "financial_status" "Struggling" = some 0.3 := rfl
theorem mapping_mental_Good : mappingLookup "mental_health" "Good" = some 0.8 := rfl
theorem mapping_mental_Poor : mappingLookup "mental_health" "Poor" = some 0.2 := rfl
theorem mapping_peer_Positive : mappingLookup "peer_influence" "Positive" = some 1.0 := rfl
theorem mapping_extra_High : mappingLookup "extracurricular" "High" = some 1.0 := rfl
theorem mapping_grades_Excellent :
    mappingLookup "previous_grades" "Excellent" = some 1.0 := rfl
theorem mapping_financial_Comfortable :
    mappingLookup "financial_status" "Comfortable" = some 1.0 := rfl
theorem mapping_mental_Excellent :
    mappingLookup "mental_health" "Excellent" = some 1.0 := rfl
theorem mapping_peer_Negative : mappingLookup "peer_influence" "Negative" = some 0.2 := rfl

/-! ## Concrete end-to-end evaluations -/

/-- The "typical" spec profile. -/
def typicalProfile : StudentProfile :=
  ⟨85, 3, 7, "High", "Moderate", "Good", "Stable", "Good", "Positive"⟩

/-- The all-minimum spec profile. -/
def minimumProfile : StudentProfile :=
  ⟨0, 0, 0, "Low", "None", "Poor", "Struggling", "Poor", "Negative"⟩

/-- The all-maximum profile, whose success probability is exactly 1.0. -/
def perfectProfile : StudentProfile :=
  ⟨100, 8, 10, "High", "High", "Excellent", "Comfortable", "Excellent", "Positive"⟩

theorem factor_scores_typical :
    calculate_factor_scores typicalProfile
      = some ⟨5/8, 2/7, 1/2, 1, 7/10, 4/5, 7/10, 4/5, 1⟩ := by
  norm_num [calculate_factor_scores, typicalProfile, mapping_family_High,
    mapping_extra_Moderate, mapping_grades_Good, mapping_financial_Stable,
    mapping_mental_Good, mapping_peer_Positive, normalize_continuous_value,
    Option.bind_eq_bind, Option.bind]

theorem factor_scores_minimum :
    calculate_factor_scores minimumProfile
      = some ⟨0, 0, 0, 3/10, 3/10, 1/5, 3/10, 1/5, 1/5⟩ := by
  norm_num [calculate_factor_scores, minimumProfile, mapping_family_Low,
    mapping_extra_None, mapping_grades_Poor, mapping_financial_Struggling,
    mapping_mental_Poor, mapping_peer_Negative, normalize_continuous_value,
    Option.bind_eq_bind, Option.bind]

theorem factor_scores_perfect :
    calculate_factor_scores perfectProfile = some ⟨1, 1, 1, 1, 1, 1, 1, 1, 1⟩ := by
  norm_num [calculate_factor_scores, perfectProfile, mapping_family_High,
    mapping_extra_High, mapping_grades_Excellent, mapping_financial_Comfortable,
    mapping_mental_Excellent, mapping_peer_Positive, normalize_continuous_value,
    Option.bind_eq_bind, Option.bind]

theorem weighted_perfect :
    calculate_weighted_score ⟨1, 1, 1, 1, 1, 1, 1, 1, 1⟩ = 1 := by
  unfold calculate_weighted_score
  rw [weightOf_attendance, weightOf_study_hours, weightOf_previous_grades,
    weightOf_sleep_hours, weightOf_mental_health, weightOf_extracurricular,
    weightOf_family_support, weightOf_financial_status, weightOf_peer_influence]
  rw [show (1 : ℚ) * 0.25 + 1 * 0.20 + 1 * 0.15 + 1 * 0.15 + 1 * 0.10
      + 1 * 0.05 + 1 * 0.05 + 1 * 0.03 + 1 * 0.02 = 1 by norm_num]
  rw [round4_eq_down (n := 10000) (by norm_num) (by norm_num)]
  norm_num

theorem weighted_typical :
    calculate_weighted_score ⟨5/8, 2/7, 1/2, 1, 7/10, 4/5, 7/10, 4/5, 1⟩ = 384/625 := by
  unfold calculate_weighted_score
  rw [weightOf_attendance, weightOf_study_hours, weightOf_previous_grades,
    weightOf_sleep_hours, weightOf_mental_health, weightOf_extracurricular,
    weightOf_family_support, weightOf_financial_status, weightOf_peer_influence]
  rw [show (5/8 : ℚ) * 0.25 + 2/7 * 0.20 + 4/5 * 0.15 + 1/2 * 0.15 + 4/5 * 0.10
      + 7/10 * 0.05 + 1 * 0.05 + 7/10 * 0.03 + 1 * 0.02 = 17203/28000 by norm_num]
  rw [round4_eq_up (n := 6143) (by norm_num) (by norm_num)]
  norm_num

theorem weighted_minimum :
    calculate_weighted_score ⟨0, 0, 0, 3/10, 3/10, 1/5, 3/10, 1/5, 1/5⟩ = 93/1000 := by
  unfold calculate_weighted_score
  rw [weightOf_attendance, weightOf_study_hours, weightOf_previous_grades,
    weightOf_sleep_hours, weightOf_mental_health, weightOf_extracurricular,
    weightOf_family_support, weightOf_financial_status, weightOf_peer_influence]
  rw [show (0 : ℚ) * 0.25 + 0 * 0.20 + 1/5 * 0.15 + 0 * 0.15 + 1/5 * 0.10
      + 3/10 * 0.05 + 3/10 * 0.05 + 3/10 * 0.03 + 1/5 * 0.02 = 93/1000 by norm_num]
  rw [round4_eq_down (n := 930) (by norm_num) (by norm_num)]
  norm_num

theorem risk_of_typical :
    determine_risk_level (384/625)
      = ⟨"MODERATE_RISK", "🟨 Moderate Risk", "#FFD166",
         "Requires monitoring and support", 384/625⟩ := by
  norm_num [determine_risk_level, RISK_LEVELS, List.find?]

theorem risk_of_minimum :
    determine_risk_level (93/1000)
      = ⟨"HIGH_RISK", "🟥 High Risk", "#FF6B6B",
         "Needs immediate intervention", 93/1000⟩ := by
  norm_num [determine_risk_level, RISK_LEVELS, List.find?]

/-! ## Claim theorems -/

/-- C1: the four `RISK_LEVELS` bands are matched with the half-open test
`min <= score < max` at every band, so the documented boundary scores
0.0, 0.4, 0.7 and 0.85 map to High Risk, Moderate Risk, At Risk and
Success respectively — but a score of exactly 1.0 matches no band and
falls through to the `UNKNOWN` fallback, contradicting the spec's closed
upper boundary for Success. -/
theorem determine_risk_level_boundaries :
    (determine_risk_level 0.0).level = "HIGH_RISK" ∧
    (determine_risk_level 0.4).level = "MODERATE_RISK" ∧
    (determine_risk_level 0.7).level = "AT_RISK" ∧
    (determine_risk_level 0.85).level = "SUCCESS" ∧
    (determine_risk_level 1.0).level = "UNKNOWN" ∧
    (predict perfectProfile).map (fun pr => pr.risk_assessment.level)
      = some "UNKNOWN" := by
  refine ⟨?_, ?_, ?_, ?_, ?_, ?_⟩ <;>
    [skip; skip; skip; skip; skip;
     · simp only [predict, factor_scores_perfect, Option.bind_eq_bind, Option.some_bind,
         Option.pure_def, Option.map_some', weighted_perfect]
       norm_num [determine_risk_level, RISK_LEVELS, List.find?]] <;>
    norm_num [determine_risk_level, RISK_LEVELS, List.find?]

/-- C2 counterexample: for the typical profile the code returns a weighted
success probability of exactly 0.6144, not ≈ 0.6932 as claimed. -/
theorem predict_typical_probability_counterexample :
    (predict typicalProfile).map (fun pr => pr.success_probability) ≠ some 0.6932 ∧
    (predict typicalProfile).map (fun pr => pr.success_probability) = some 0.6144 := by
  have h : (predict typicalProfile).map (fun pr => pr.success_probability)
      = some (384/625) := by
    simp only [predict, factor_scores_typical, Option.bind_eq_bind, Option.some_bind,
      Option.pure_def, Option.map_some', weighted_typical]
  constructor
  · rw [h]
    intro hc
    rw [Option.some.injEq] at hc
    norm_num at hc
  · rw [h]
    norm_num

/-- C2 (amended): for the typical profile (attendance=85, study_hours=3.0,
sleep_hours=7.0, family_support=High, extracurricular=Moderate,
previous_grades=Good, financial_status=Stable, mental_health=Good,
peer_influence=Positive) the factor scores are 0.625, 2/7, 0.5, 1.0, 0.7,
0.8, 0.7, 0.8, 1.0 as claimed, and the weighted success probability is
0.6144 (not 0.6932), with risk level Moderate Risk. -/
theorem predict_typical_profile_spec :
    (predict typicalProfile).map (fun pr =>
        (pr.factor_scores.attendance, pr.factor_scores.study_hours,
         pr.factor_scores.sleep_hours, pr.factor_scores.family_support,
         pr.factor_scores.extracurricular, pr.factor_scores.previous_grades,
         pr.factor_scores.financial_status, pr.factor_scores.mental_health,
         pr.factor_scores.peer_influence, pr.success_probability,
         pr.risk_assessment.level))
      = some (0.625, 2/7, 0.5, 1.0, 0.7, 0.8, 0.7, 0.8, 1.0, 0.6144, "MODERATE_RISK") := by
  simp only [predict, factor_scores_typical, Option.bind_eq_bind, Option.some_bind,
    Option.pure_def, Option.map_some', weighted_typical, risk_of_typical]
  norm_num

/-- C3 counterexample: for the all-minimum profile the code returns a
success probability of exactly 0.093 (the weakest categorical options map
to 0.2/0.3, not 0), so the claimed probability 0.0 is wrong. -/
theorem predict_minimum_probability_counterexample :
    (predict minimumProfile).map (fun pr => pr.success_probability) ≠ some 0.0 ∧
    (predict minimumProfile).map (fun pr => pr.success_probability) = some 0.093 := by
  have h : (predict minimumProfile).map (fun pr => pr.success_probability)
      = some (93/1000) := by
    simp only [predict, factor_scores_minimum, Option.bind_eq_bind, Option.some_bind,
      Option.pure_def, Option.map_some', weighted_minimum]
  constructor
  · rw [h]
    intro hc
    rw [Option.some.injEq] at hc
    norm_num at hc
  · rw [h]
    norm_num

/-- C3 (amended): the all-minimum profile (attendance=0, study_hours=0,
sleep_hours=0, family_support=Low, extracurricular=None,
previous_grades=Poor, financial_status=Struggling, mental_health=Poor,
peer_influence=Negative) yields success probability 0.093 (not 0.0) and
risk level High Risk. -/
theorem predict_minimum_profile_spec :
    (predict minimumProfile).map (fun pr =>
        (pr.success_probability, pr.risk_assessment.level))
      = some (0.093, "HIGH_RISK") := by
  simp only [predict, factor_scores_minimum, Option.bind_eq_bind, Option.some_bind,
    Option.pure_def, Option.map_some', weighted_minimum, risk_of_minimum]
  norm_num

/-! ## `utils/calculations.py` and the nine factor keys -/

/-- The nine factor keys, in the insertion order used throughout the code
(`required_fields` in `validators.py`, dict order in
`calculate_factor_scores`). -/
def factorKeys : List String :=
  ["attendance", "study_hours", "sleep_hours",
   "family_support", "extracurricular", "previous_grades",
   "financial_status", "mental_health", "peer_influence"]

/-- The per-factor hypothetical score of `estimate_intervention_impact`:
`min(1.0, current_score + improvements.get(factor, 0))`. -/
def hypotheticalScore (improvements : List (String × ℚ)) (p : String × ℚ) : ℚ :=
  min 1 (p.2 + ((improvements.lookup p.1).getD 0))

/-- `calculations.estimate_intervention_impact`: accumulate
`new_factor_score * weight` over the factor-scores dict, then
`round(new_score, 4)`. -/
def estimate_intervention_impact (factor_scores improvements : List (String × ℚ)) : ℚ :=
  round4 ((factor_scores.map (fun p => hypotheticalScore improvements p * findWeight p.1)).sum)

/-- Sum of the weights of one category of `WEIGHTS`. -/
def categoryWeightSum (category : String) : ℚ :=
  (((WEIGHTS.lookup category).getD []).map Prod.snd).sum

theorem findWeight_nonneg_of_key : ∀ g ∈ factorKeys, 0 ≤ findWeight g := by
  intro g hg
  simp only [factorKeys, List.mem_cons, List.not_mem_nil, or_false] at hg
  rcases hg with rfl | rfl | rfl | rfl | rfl | rfl | rfl | rfl | rfl <;>
    simp [findWeight_attendance, findWeight_study_hours, findWeight_sleep_hours,
      findWeight_family_support, findWeight_extracurricular, findWeight_previous_grades,
      findWeight_financial_status, findWeight_mental_health, findWeight_peer_influence] <;>
    norm_num

theorem factorKeys_weight_sum : (factorKeys.map findWeight).sum = 1 := by
  simp only [factorKeys, List.map_cons, List.map_nil, findWeight_attendance,
    findWeight_study_hours, findWeight_sleep_hours, findWeight_family_support,
    findWeight_extracurricular, findWeight_previous_grades, findWeight_financial_status,
    findWeight_mental_health, findWeight_peer_influence, List.sum_cons, List.sum_nil]
  norm_num

/-- C4: the three category subtotals of `WEIGHTS` are 0.60, 0.30 and 0.10,
they sum to 1.0, and consequently for every factor-scores dict with all
nine keys and values in [0,1] the weighted score (rounded to 4 decimal
places) lies in [0,1]. -/
theorem weights_sum_and_score_bounds :
    categoryWeightSum "academic_factors" = 0.60 ∧
    categoryWeightSum "wellness_factors" = 0.30 ∧
    categoryWeightSum "support_factors" = 0.10 ∧
    categoryWeightSum "academic_factors" + categoryWeightSum "wellness_factors"
      + categoryWeightSum "support_factors" = 1 ∧
    ∀ fs : FactorScores, (∀ p ∈ fs.toList, 0 ≤ p.2 ∧ p.2 ≤ 1) →
      0 ≤ calculate_weighted_score fs ∧ calculate_weighted_score fs ≤ 1 := by
  have e1 : categoryWeightSum "academic_factors" = [(0.25 : ℚ), 0.20, 0.15].sum := rfl
  have e2 : categoryWeightSum "wellness_factors" = [(0.15 : ℚ), 0.10, 0.05].sum := rfl
  have e3 : categoryWeightSum "support_factors" = [(0.05 : ℚ), 0.03, 0.02].sum := rfl
  have s1 : categoryWeightSum "academic_factors" = 0.60 := by
    rw [e1]; norm_num [List.sum_cons, List.sum_nil]
  have s2 : categoryWeightSum "wellness_factors" = 0.30 := by
    rw [e2]; norm_num [List.sum_cons, List.sum_nil]
  have s3 : categoryWeightSum "support_factors" = 0.10 := by
    rw [e3]; norm_num [List.sum_cons, List.sum_nil]
  refine ⟨s1, s2, s3, by rw [s1, s2, s3]; norm_num, ?_⟩
  intro fs h
  have ha := h ("attendance", fs.attendance) (by simp [FactorScores.toList])
  have hsh := h ("study_hours", fs.study_hours) (by simp [FactorScores.toList])
  have hsl := h ("sleep_hours", fs.sleep_hours) (by simp [FactorScores.toList])
  have hfa := h ("family_support", fs.family_support) (by simp [FactorScores.toList])
  have hex := h ("extracurricular", fs.extracurricular) (by simp [FactorScores.toList])
  have hpg := h ("previous_grades", fs.previous_grades) (by simp [FactorScores.toList])
  have hfi := h ("financial_status", fs.financial_status) (by simp [FactorScores.toList])
  have hmh := h ("mental_health", fs.mental_health) (by simp [FactorScores.toList])
  have hpi := h ("peer_influence", fs.peer_influence) (by simp [FactorScores.toList])
  have e : calculate_weighted_score fs = round4
      (fs.attendance * 0.25 + fs.study_hours * 0.20 + fs.previous_grades * 0.15
       + fs.sleep_hours * 0.15 + fs.mental_health * 0.10 + fs.extracurricular * 0.05
       + fs.family_support * 0.05 + fs.financial_status * 0.03
       + fs.peer_influence * 0.02) := by
    unfold calculate_weighted_score
    rw [weightOf_attendance, weightOf_study_hours, weightOf_previous_grades,
      weightOf_sleep_hours, weightOf_mental_health, weightOf_extracurricular,
      weightOf_family_support, weightOf_financial_status, weightOf_peer_influence]
  rw [e]
  constructor
  · apply round4_nonneg
    have t1 : 0 ≤ fs.attendance * 0.25 := mul_nonneg ha.1 (by norm_num)
    have t2 : 0 ≤ fs.study_hours * 0.20 := mul_nonneg hsh.1 (by norm_num)
    have t3 : 0 ≤ fs.previous_grades * 0.15 := mul_nonneg hpg.1 (by norm_num)
    have t4 : 0 ≤ fs.sleep_hours * 0.15 := mul_nonneg hsl.1 (by norm_num)
    have t5 : 0 ≤ fs.mental_health * 0.10 := mul_nonneg hmh.1 (by norm_num)
    have t6 : 0 ≤ fs.extracurricular * 0.05 := mul_nonneg hex.1 (by norm_num)
    have t7 : 0 ≤ fs.family_support * 0.05 := mul_nonneg hfa.1 (by norm_num)
    have t8 : 0 ≤ fs.financial_status * 0.03 := mul_nonneg hfi.1 (by norm_num)
    have t9 : 0 ≤ fs.peer_influence * 0.02 := mul_nonneg hpi.1 (by norm_num)
    linarith
  · apply round4_le_one
    have u1 : fs.attendance * 0.25 ≤ 0.25 :=
      mul_le_of_le_one_left (by norm_num) ha.2
    have u2 : fs.study_hours * 0.20 ≤ 0.20 :=
      mul_le_of_le_one_left (by norm_num) hsh.2
    have u3 : fs.previous_grades * 0.15 ≤ 0.15 :=
      mul_le_of_le_one_left (by norm_num) hpg.2
    have u4 : fs.sleep_hours * 0.15 ≤ 0.15 :=
      mul_le_of_le_one_left (by norm_num) hsl.2
    have u5 : fs.mental_health * 0.10 ≤ 0.10 :=
      mul_le_of_le_one_left (by norm_num) hmh.2
    have u6 : fs.extracurricular * 0.05 ≤ 0.05 :=
      mul_le_of_le_one_left (by norm_num) hex.2
    have u7 : fs.family_support * 0.05 ≤ 0.05 :=
      mul_le_of_le_one_left (by norm_num) hfa.2
    have u8 : fs.financial_status * 0.03 ≤ 0.03 :=
      mul_le_of_le_one_left (by norm_num) hfi.2
    have u9 : fs.peer_influence * 0.02 ≤ 0.02 :=
      mul_le_of_le_one_left (by norm_num) hpi.2
    linarith

/-- C4 witness: the bound applied to the all-one-half factor scores. -/
theorem weights_sum_and_score_bounds_witness :
    0 ≤ calculate_weighted_score ⟨1/2, 1/2, 1/2, 1/2, 1/2, 1/2, 1/2, 1/2, 1/2⟩ ∧
    calculate_weighted_score ⟨1/2, 1/2, 1/2, 1/2, 1/2, 1/2, 1/2, 1/2, 1/2⟩ ≤ 1 :=
  weights_sum_and_score_bounds.2.2.2.2 ⟨1/2, 1/2, 1/2, 1/2, 1/2, 1/2, 1/2, 1/2, 1/2⟩
    (by intro p hp; simp [FactorScores.toList] at hp; rcases hp with
      rfl | rfl | rfl | rfl | rfl | rfl | rfl | rfl | rfl <;> norm_num)

/-- C5: simulating an intervention with the empty delta map returns exactly
the aggregate weighted score: for any insertion order `l` of a
factor-scores dict with exactly the nine keys and values in [0,1],
`estimate_intervention_impact l {} = calculate_weighted_score fs`. -/
theorem estimate_empty_deltas_eq_weighted (fs : FactorScores) (l : List (String × ℚ))
    (hperm : l.Perm fs.toList) (_h0 : ∀ p ∈ l, 0 ≤ p.2) (h1 : ∀ p ∈ l, p.2 ≤ 1) :
    estimate_intervention_impact l [] = calculate_weighted_score fs := by
  unfold estimate_intervention_impact
  have hmap : l.map (fun p => hypotheticalScore [] p * findWeight p.1)
      = l.map (fun p => p.2 * findWeight p.1) := by
    apply List.map_congr_left
    intro p hp
    have : hypotheticalScore [] p = p.2 := by
      unfold hypotheticalScore
      simp only [List.lookup_nil, Option.getD_none, add_zero]
      exact min_eq_right (h1 p hp)
    rw [this]
  rw [hmap, (hperm.map (fun p => p.2 * findWeight p.1)).sum_eq]
  have : (fs.toList.map (fun p => p.2 * findWeight p.1)).sum
      = fs.attendance * 0.25 + fs.study_hours * 0.20 + fs.previous_grades * 0.15
        + fs.sleep_hours * 0.15 + fs.mental_health * 0.10 + fs.extracurricular * 0.05
        + fs.family_support * 0.05 + fs.financial_status * 0.03
        + fs.peer_influence * 0.02 := by
    simp only [FactorScores.toList, List.map_cons, List.map_nil, List.sum_cons,
      List.sum_nil, findWeight_attendance, findWeight_study_hours, findWeight_sleep_hours,
      findWeight_family_support, findWeight_extracurricular, findWeight_previous_grades,
      findWeight_financial_status, findWeight_mental_health, findWeight_peer_influence]
    ring
  rw [this]
  unfold calculate_weighted_score
  rw [weightOf_attendance, weightOf_study_hours, weightOf_previous_grades,
    weightOf_sleep_hours, weightOf_mental_health, weightOf_extracurricular,
    weightOf_family_support, weightOf_financial_status, weightOf_peer_influence]

/-- C5 witness: the identity at a concrete factor-scores dict. -/
theorem estimate_empty_deltas_eq_weighted_witness :
    estimate_intervention_impact
        (FactorScores.toList ⟨1/2, 1/4, 3/4, 1, 0, 1/5, 2/5, 3/5, 4/5⟩) []
      = calculate_weighted_score ⟨1/2, 1/4, 3/4, 1, 0, 1/5, 2/5, 3/5, 4/5⟩ :=
  estimate_empty_deltas_eq_weighted _ _ (List.Perm.refl _)
    (by intro p hp; simp [FactorScores.toList] at hp; rcases hp with
      rfl | rfl | rfl | rfl | rfl | rfl | rfl | rfl | rfl <;> norm_num)
    (by intro p hp; simp [FactorScores.toList] at hp; rcases hp with
      rfl | rfl | rfl | rfl | rfl | rfl | rfl | rfl | rfl <;> norm_num)

/-- C6: the simulator clamps each hypothetical score above at 1.0 but not
below at 0 (a delta pushing the sum below zero is used as-is), leaves
factors without a proposed delta unchanged, and for a dict with the nine
keys its result never exceeds 1.0. -/
theorem estimate_intervention_spec :
    (∀ improvements : List (String × ℚ), ∀ f : String, ∀ v : ℚ,
      v + ((improvements.lookup f).getD 0) ≤ 1 →
        hypotheticalScore improvements (f, v) = v + ((improvements.lookup f).getD 0)) ∧
    (∀ improvements : List (String × ℚ), ∀ f : String, ∀ v : ℚ,
      improvements.lookup f = none → v ≤ 1 → hypotheticalScore improvements (f, v) = v) ∧
    (∀ l improvements : List (String × ℚ),
      (l.map Prod.fst).Perm factorKeys → (∀ p ∈ l, 0 ≤ p.2 ∧ p.2 ≤ 1) →
        estimate_intervention_impact l improvements ≤ 1) := by
  refine ⟨?_, ?_, ?_⟩
  · intro improvements f v h
    unfold hypotheticalScore
    exact min_eq_right h
  · intro improvements f v hnone hv
    unfold hypotheticalScore
    rw [hnone]
    simpa using min_eq_right hv
  · intro l improvements hperm hvals
    unfold estimate_intervention_impact
    apply round4_le_one
    have hterm : ∀ p ∈ l,
        hypotheticalScore improvements p * findWeight p.1 ≤ findWeight p.1 := by
      intro p hp
      have hmem : p.1 ∈ factorKeys :=
        hperm.mem_iff.mp (List.mem_map_of_mem Prod.fst hp)
      have hw : 0 ≤ findWeight p.1 := findWeight_nonneg_of_key p.1 hmem
      exact mul_le_of_le_one_left hw (min_le_left _ _)
    have hsum := List.sum_le_sum hterm
    have hws : (l.map (fun p => findWeight p.1)).sum = 1 := by
      have hcomp : l.map (fun p => findWeight p.1) = (l.map Prod.fst).map findWeight := by
        rw [List.map_map]
        rfl
      rw [hcomp, (hperm.map findWeight).sum_eq, factorKeys_weight_sum]
    linarith

/-- C6 witness: no lower clamp (0.2 − 0.9 = −0.7 is used as-is), unchanged
factor without a delta, and the ≤ 1 bound at a concrete input. -/
theorem estimate_intervention_spec_witness :
    hypotheticalScore [("attendance", -(9 : ℚ)/10)] ("attendance", 2/10) = -(7 : ℚ)/10 ∧
    hypotheticalScore [("attendance", -(9 : ℚ)/10)] ("sleep_hours", 1/2) = 1/2 ∧
    estimate_intervention_impact
        (FactorScores.toList ⟨1/2, 1/2, 1/2, 1/2, 1/2, 1/2, 1/2, 1/2, 1/2⟩)
        [("attendance", 2)] ≤ 1 := by
  refine ⟨?_, ?_, ?_⟩
  · rw [estimate_intervention_spec.1 [("attendance", -(9 : ℚ)/10)] "attendance" (2/10)
      (by rw [show ([("attendance", -(9 : ℚ)/10)].lookup "attendance") = some (-(9 : ℚ)/10)
            from rfl]; norm_num)]
    rw [show ([("attendance", -(9 : ℚ)/10)].lookup "attendance") = some (-(9 : ℚ)/10)
      from rfl]
    norm_num
  · exact estimate_intervention_spec.2.1 [("attendance", -(9 : ℚ)/10)] "sleep_hours" (1/2)
      rfl (by norm_num)
  · apply estimate_intervention_spec.2.2
    · rw [show (FactorScores.toList ⟨1/2, 1/2, 1/2, 1/2, 1/2, 1/2, 1/2, 1/2, 1/2⟩).map
          Prod.fst = factorKeys from rfl]
    · intro p hp
      simp [FactorScores.toList] at hp
      rcases hp with rfl | rfl | rfl | rfl | rfl | rfl | rfl | rfl | rfl <;> norm_num

/-! ## C7: factor-impact ranking -/

/-- Concrete evaluation of the ranker on a two-factor dict. -/
theorem identify_key_factors_pair_eval :
    identify_key_factors [("attendance", 1), ("study_hours", 1)]
      = [("attendance", 1, 1/4), ("study_hours", 1, 1/5)] := by
  unfold identify_key_factors factorImpacts
  simp only [List.map_cons, List.map_nil, findWeight_attendance, findWeight_study_hours]
  norm_num [List.insertionSort, List.orderedInsert, impactGE]

/-- C7: `identify_key_factors` returns `(factor, score, score * weight)`
triples drawn from the input, sorted descending by impact with ties (and
all non-inversions) keeping the stable insertion order of the input dict,
truncated to the first three entries of the full ranked list; the head's
impact is ≥ every returned impact. -/
theorem identify_key_factors_spec (l : List (String × ℚ)) :
    (∀ t ∈ identify_key_factors l, (t.1, t.2.1) ∈ l ∧ t.2.2 = t.2.1 * findWeight t.1) ∧
    List.Sorted impactGE (identify_key_factors l) ∧
    List.IsPrefix (identify_key_factors l) ((factorImpacts l).insertionSort impactGE) ∧
    ((factorImpacts l).insertionSort impactGE).Perm (factorImpacts l) ∧
    (∀ a b : String × ℚ × ℚ, impactGE a b → List.Sublist [a, b] (factorImpacts l) →
      List.Sublist [a, b] ((factorImpacts l).insertionSort impactGE)) ∧
    (identify_key_factors l).length = min 3 l.length ∧
    (∀ hd, (identify_key_factors l).head? = some hd →
      ∀ t ∈ identify_key_factors l, t.2.2 ≤ hd.2.2) := by
  have hsorted : List.Sorted impactGE ((factorImpacts l).insertionSort impactGE) :=
    List.sorted_insertionSort impactGE (factorImpacts l)
  have htake : List.IsPrefix (identify_key_factors l)
      ((factorImpacts l).insertionSort impactGE) := by
    unfold identify_key_factors
    exact List.take_prefix 3 _
  have hsorted3 : List.Sorted impactGE (identify_key_factors l) :=
    List.Pairwise.sublist htake.sublist hsorted
  refine ⟨?_, hsorted3, htake, List.perm_insertionSort impactGE (factorImpacts l),
    ?_, ?_, ?_⟩
  · intro t ht
    have hmem : t ∈ factorImpacts l := by
      have h1 : t ∈ (factorImpacts l).insertionSort impactGE := htake.sublist.mem ht
      exact (List.mem_insertionSort impactGE).mp h1
    unfold factorImpacts at hmem
    rcases List.mem_map.mp hmem with ⟨p, hp, he⟩
    refine ⟨?_, ?_⟩
    · rw [← he]
      exact hp
    · rw [← he]
  · intro a b hab hsub
    exact List.pair_sublist_insertionSort hab hsub
  · unfold identify_key_factors
    rw [List.length_take, List.length_insertionSort]
    unfold factorImpacts
    rw [List.length_map]
  · intro hd hhd t ht
    rcases he : identify_key_factors l with _ | ⟨x, rest⟩
    · rw [he] at ht
      exact absurd ht (List.not_mem_nil t)
    · rw [he] at hhd
      have hx : hd = x := by
        have := hhd
        simp only [List.head?_cons, Option.some.injEq] at this
        exact this.symm
      rw [he] at ht
      rw [hx]
      rcases List.mem_cons.mp ht with rfl | htr
      · exact le_refl _
      · rw [he] at hsorted3
        exact List.rel_of_sorted_cons hsorted3 t htr

/-- C7 witness: the head of the ranking of a concrete two-factor dict
dominates the other returned impact. -/
theorem identify_key_factors_spec_witness :
    ("study_hours", (1 : ℚ), (1 : ℚ)/5).2.2 ≤ ("attendance", (1 : ℚ), (1 : ℚ)/4).2.2 :=
  (identify_key_factors_spec [("attendance", 1), ("study_hours", 1)]).2.2.2.2.2.2
    ("attendance", 1, 1/4)
    (by rw [identify_key_factors_pair_eval]; rfl)
    ("study_hours", 1, 1/5)
    (by rw [identify_key_factors_pair_eval]; simp)

/-! ## C10: unknown factor keys resolve to weight 0 -/

/-- C10: a factor key outside the weight table resolves to weight 0 instead
of failing: it contributes an impact of 0 to the ranking input and adds
nothing to the simulated weighted total. -/
theorem unknown_factor_weight_spec (f : String) (h : f ∉ factorKeys) :
    findWeight f = 0 ∧
    (∀ s : ℚ, ∀ l : List (String × ℚ),
      factorImpacts ((f, s) :: l) = (f, s, 0) :: factorImpacts l) ∧
    (∀ l₁ l₂ : List (String × ℚ), ∀ v : ℚ, ∀ improvements : List (String × ℚ),
      estimate_intervention_impact (l₁ ++ (f, v) :: l₂) improvements
        = estimate_intervention_impact (l₁ ++ l₂) improvements) := by
  have hne : f ≠ "attendance" ∧ f ≠ "study_hours" ∧ f ≠ "sleep_hours" ∧
      f ≠ "family_support" ∧ f ≠ "extracurricular" ∧ f ≠ "previous_grades" ∧
      f ≠ "financial_status" ∧ f ≠ "mental_health" ∧ f ≠ "peer_influence" := by
    simp only [factorKeys, List.mem_cons, List.not_mem_nil, or_false] at h
    push_neg at h
    exact h
  obtain ⟨h1, h2, h3, h4, h5, h6, h7, h8, h9⟩ := hne
  have hw : findWeight f = 0 := by
    unfold findWeight WEIGHTS
    simp only [List.findSome?_cons, List.findSome?_nil, List.lookup,
      beq_eq_false_iff_ne.mpr h1, beq_eq_false_iff_ne.mpr h2, beq_eq_false_iff_ne.mpr h3,
      beq_eq_false_iff_ne.mpr h4, beq_eq_false_iff_ne.mpr h5, beq_eq_false_iff_ne.mpr h6,
      beq_eq_false_iff_ne.mpr h7, beq_eq_false_iff_ne.mpr h8, beq_eq_false_iff_ne.mpr h9]
  refine ⟨hw, ?_, ?_⟩
  · intro s l
    unfold factorImpacts
    rw [List.map_cons, hw, mul_zero]
  · intro l₁ l₂ v improvements
    unfold estimate_intervention_impact
    rw [List.map_append, List.map_append, List.map_cons, List.sum_append,
      List.sum_append, List.sum_cons, hw, mul_zero, zero_add]

/-- C10 witness: the behaviour at the concrete unknown key `"gpa"`. -/
theorem unknown_factor_weight_spec_witness :
    findWeight "gpa" = 0 ∧
    estimate_intervention_impact [("gpa", 5), ("attendance", 1)] []
      = estimate_intervention_impact [("attendance", 1)] [] :=
  ⟨(unknown_factor_weight_spec "gpa" (by decide)).1,
   (unknown_factor_weight_spec "gpa" (by decide)).2.2 [] [("attendance", 1)] 5 []⟩

/-! ## `utils/validators.py` -/

/-- Python's `str.title()` on a character list: uppercase each letter that
does not follow a letter, lowercase the rest. -/
def titleChars : Bool → List Char → List Char
  | _, [] => []
  | prevAlpha, c :: cs =>
    (if c.isAlpha then (if prevAlpha then c.toLower else c.toUpper) else c)
      :: titleChars c.isAlpha cs

/-- Python's `str.title()`. -/
def pyTitle (s : String) : String := String.mk (titleChars false s.data)

/-- Python's `field.replace('_', ' ')` on a character list. -/
def replaceUnderscoreChars : List Char → List Char
  | [] => []
  | c :: cs => (if c = '_' then ' ' else c) :: replaceUnderscoreChars cs

/-- Python's `field.replace('_', ' ')` for the single-character pattern. -/
def replaceUnderscores (s : String) : String :=
  String.mk (replaceUnderscoreChars s.data)

/-- The `InvalidCategory` message built in `validate_student_inputs`:
`f"{field.replace('_', ' ').title()} must be one of: {', '.join(valid_options)}"`. -/
def categoryMsg (field : String) (opts : List String) : String :=
  pyTitle (replaceUnderscores field) ++ " must be one of: " ++ String.intercalate ", " opts

/-- The `**kwargs` dict of `validate_student_inputs`: each of the nine
fields either absent (`none`) or present with its typed value. -/
structure Kwargs where
  attendance : Option ℚ
  study_hours : Option ℚ
  sleep_hours : Option ℚ
  family_support : Option String
  extracurricular : Option String
  previous_grades : Option String
  financial_status : Option String
  mental_health : Option String
  peer_influence : Option String

/-- A kwargs dict with all nine fields present. -/
def presentKwargs (att sh sl : ℚ) (fam ext pg fin mh pi : String) : Kwargs :=
  ⟨some att, some sh, some sl, some fam, some ext, some pg, some fin, some mh, some pi⟩

/-- `required_fields` in `validate_student_inputs`, in code order. -/
def required_fields : List String :=
  ["attendance", "study_hours", "sleep_hours",
   "family_support", "extracurricular", "previous_grades",
   "financial_status", "mental_health", "peer_influence"]

/-- `field not in kwargs` for one required field. -/
def fieldAbsent (k : Kwargs) (field : String) : Bool :=
  if field = "attendance" then k.attendance.isNone
  else if field = "study_hours" then k.study_hours.isNone
  else if field = "sleep_hours" then k.sleep_hours.isNone
  else if field = "family_support" then k.family_support.isNone
  else if field = "extracurricular" then k.extracurricular.isNone
  else if field = "previous_grades" then k.previous_grades.isNone
  else if field = "financial_status" then k.financial_status.isNone
  else if field = "mental_health" then k.mental_health.isNone
  else if field = "peer_influence" then k.peer_influence.isNone
  else false

/-- `valid_values` in `validate_student_inputs`, in dict insertion order. -/
def valid_values : List (String × List String) :=
  [("family_support", ["Low", "Medium", "High"]),
   ("extracurricular", ["None", "Moderate", "High"]),
   ("previous_grades", ["Poor", "Average", "Good", "Excellent"]),
   ("financial_status", ["Struggling", "Stable", "Comfortable"]),
   ("mental_health", ["Poor", "Fair", "Good", "Excellent"]),
   ("peer_influence", ["Negative", "Neutral", "Positive"])]

/-- The option list of one categorical field. -/
def validOptions (field : String) : List String := (valid_values.lookup field).getD []

/-- `validators.validate_student_inputs`: the nine presence checks in
`required_fields` order, the three range checks, then the six categorical
checks in `valid_values` order; first failure wins. -/
def validate_student_inputs (k : Kwargs) : Bool × Option String :=
  match k.attendance with
  | none => (false, some "Missing required field: attendance")
  | some attendance =>
    match k.study_hours with
    | none => (false, some "Missing required field: study_hours")
    | some study_hours =>
      match k.sleep_hours with
      | none => (false, some "Missing required field: sleep_hours")
      | some sleep_hours =>
        match k.family_support with
        | none => (false, some "Missing required field: family_support")
        | some family_support =>
          match k.extracurricular with
          | none => (false, some "Missing required field: extracurricular")
          | some extracurricular =>
            match k.previous_grades with
            | none => (false, some "Missing required field: previous_grades")
            | some previous_grades =>
              match k.financial_status with
              | none => (false, some "Missing required field: financial_status")
              | some financial_status =>
                match k.mental_health with
                | none => (false, some "Missing required field: mental_health")
                | some mental_health =>
                  match k.peer_influence with
                  | none => (false, some "Missing required field: peer_influence")
                  | some peer_influence =>
                    if ¬(0 ≤ attendance ∧ attendance ≤ 100) then
                      (false, some "Attendance must be between 0 and 100%")
                    else if ¬(0 ≤ study_hours ∧ study_hours ≤ 24) then
                      (false, some "Study hours must be between 0 and 24")
                    else if ¬(0 ≤ sleep_hours ∧ sleep_hours ≤ 24) then
                      (false, some "Sleep hours must be between 0 and 24")
                    else if family_support ∉ validOptions "family_support" then
                      (false, some (categoryMsg "family_support"
                        (validOptions "family_support")))
                    else if extracurricular ∉ validOptions "extracurricular" then
                      (false, some (categoryMsg "extracurricular"
                        (validOptions "extracurricular")))
                    else if previous_grades ∉ validOptions "previous_grades" then
                      (false, some (categoryMsg "previous_grades"
                        (validOptions "previous_grades")))
                    else if financial_status ∉ validOptions "financial_status" then
                      (false, some (categoryMsg "financial_status"
                        (validOptions "financial_status")))
                    else if mental_health ∉ validOptions "mental_health" then
                      (false, some (categoryMsg "mental_health"
                        (validOptions "mental_health")))
                    else if peer_influence ∉ validOptions "peer_influence" then
                      (false, some (categoryMsg "peer_influence"
                        (validOptions "peer_influence")))
                    else (true, none)

theorem validOptions_family_support :
    validOptions "family_support" = ["Low", "Medium", "High"] := rfl
theorem validOptions_extracurricular :
    validOptions "extracurricular" = ["None", "Moderate", "High"] := rfl
theorem validOptions_previous_grades :
    validOptions "previous_grades" = ["Poor", "Average", "Good", "Excellent"] := rfl
theorem validOptions_financial_status :
    validOptions "financial_status" = ["Struggling", "Stable", "Comfortable"] := rfl
theorem validOptions_mental_health :
    validOptions "mental_health" = ["Poor", "Fair", "Good", "Excellent"] := rfl
theorem validOptions_peer_influence :
    validOptions "peer_influence" = ["Negative", "Neutral", "Positive"] := rfl

theorem categoryMsg_family_support :
    categoryMsg "family_support" ["Low", "Medium", "High"]
      = "Family Support must be one of: Low, Medium, High" := by decide
theorem categoryMsg_extracurricular :
    categoryMsg "extracurricular" ["None", "Moderate", "High"]
      = "Extracurricular must be one of: None, Moderate, High" := by decide
theorem categoryMsg_previous_grades :
    categoryMsg "previous_grades" ["Poor", "Average", "Good", "Excellent"]
      = "Previous Grades must be one of: Poor, Average, Good, Excellent" := by decide
theorem categoryMsg_financial_status :
    categoryMsg "financial_status" ["Struggling", "Stable", "Comfortable"]
      = "Financial Status must be one of: Struggling, Stable, Comfortable" := by decide
theorem categoryMsg_mental_health :
    categoryMsg "mental_health" ["Poor", "Fair", "Good", "Excellent"]
      = "Mental Health must be one of: Poor, Fair, Good, Excellent" := by decide
theorem categoryMsg_peer_influence :
    categoryMsg "peer_influence" ["Negative", "Neutral", "Positive"]
      = "Peer Influence must be one of: Negative, Neutral, Positive" := by decide

/-- C8: `validate_student_inputs` rejects a kwargs dict with a missing
required key with a message naming a missing field; with all nine present
it rejects out-of-range attendance/study/sleep values with the message
naming the first offending field; then rejects a categorical value outside
its options with a message listing them (in `valid_values` order); and
accepts with `(true, none)` when all nine fields are present and valid. -/
theorem validate_student_inputs_spec :
    (∀ k : Kwargs, (∃ f ∈ required_fields, fieldAbsent k f = true) →
      ∃ f ∈ required_fields, fieldAbsent k f = true ∧
        validate_student_inputs k = (false, some ("Missing required field: " ++ f))) ∧
    (∀ att sh sl : ℚ, ∀ fam ext pg fin mh pi : String,
      (¬(0 ≤ att ∧ att ≤ 100) →
        validate_student_inputs (presentKwargs att sh sl fam ext pg fin mh pi)
          = (false, some "Attendance must be between 0 and 100%")) ∧
      ((0 ≤ att ∧ att ≤ 100) → ¬(0 ≤ sh ∧ sh ≤ 24) →
        validate_student_inputs (presentKwargs att sh sl fam ext pg fin mh pi)
          = (false, some "Study hours must be between 0 and 24")) ∧
      ((0 ≤ att ∧ att ≤ 100) → (0 ≤ sh ∧ sh ≤ 24) → ¬(0 ≤ sl ∧ sl ≤ 24) →
        validate_student_inputs (presentKwargs att sh sl fam ext pg fin mh pi)
          = (false, some "Sleep hours must be between 0 and 24")) ∧
      ((0 ≤ att ∧ att ≤ 100) → (0 ≤ sh ∧ sh ≤ 24) → (0 ≤ sl ∧ sl ≤ 24) →
        fam ∉ ["Low", "Medium", "High"] →
        validate_student_inputs (presentKwargs att sh sl fam ext pg fin mh pi)
          = (false, some "Family Support must be one of: Low, Medium, High")) ∧
      ((0 ≤ att ∧ att ≤ 100) → (0 ≤ sh ∧ sh ≤ 24) → (0 ≤ sl ∧ sl ≤ 24) →
        fam ∈ ["Low", "Medium", "High"] → ext ∉ ["None", "Moderate", "High"] →
        validate_student_inputs (presentKwargs att sh sl fam ext pg fin mh pi)
          = (false, some "Extracurricular must be one of: None, Moderate, High")) ∧
      ((0 ≤ att ∧ att ≤ 100) → (0 ≤ sh ∧ sh ≤ 24) → (0 ≤ sl ∧ sl ≤ 24) →
        fam ∈ ["Low", "Medium", "High"] → ext ∈ ["None", "Moderate", "High"] →
        pg ∉ ["Poor", "Average", "Good", "Excellent"] →
        validate_student_inputs (presentKwargs att sh sl fam ext pg fin mh pi)
          = (false, some "Previous Grades must be one of: Poor, Average, Good, Excellent")) ∧
      ((0 ≤ att ∧ att ≤ 100) → (0 ≤ sh ∧ sh ≤ 24) → (0 ≤ sl ∧ sl ≤ 24) →
        fam ∈ ["Low", "Medium", "High"] → ext ∈ ["None", "Moderate", "High"] →
        pg ∈ ["Poor", "Average", "Good", "Excellent"] →
        fin ∉ ["Struggling", "Stable", "Comfortable"] →
        validate_student_inputs (presentKwargs att sh sl fam ext pg fin mh pi)
          = (false, some "Financial Status must be one of: Struggling, Stable, Comfortable")) ∧
      ((0 ≤ att ∧ att ≤ 100) → (0 ≤ sh ∧ sh ≤ 24) → (0 ≤ sl ∧ sl ≤ 24) →
        fam ∈ ["Low", "Medium", "High"] → ext ∈ ["None", "Moderate", "High"] →
        pg ∈ ["Poor", "Average", "Good", "Excellent"] →
        fin ∈ ["Struggling", "Stable", "Comfortable"] →
        mh ∉ ["Poor", "Fair", "Good", "Excellent"] →
        validate_student_inputs (presentKwargs att sh sl fam ext pg fin mh pi)
          = (false, some "Mental Health must be one of: Poor, Fair, Good, Excellent")) ∧
      ((0 ≤ att ∧ att ≤ 100) → (0 ≤ sh ∧ sh ≤ 24) → (0 ≤ sl ∧ sl ≤ 24) →
        fam ∈ ["Low", "Medium", "High"] → ext ∈ ["None", "Moderate", "High"] →
        pg ∈ ["Poor", "Average", "Good", "Excellent"] →
        fin ∈ ["Struggling", "Stable", "Comfortable"] →
        mh ∈ ["Poor", "Fair", "Good", "Excellent"] →
        pi ∉ ["Negative", "Neutral", "Positive"] →
        validate_student_inputs (presentKwargs att sh sl fam ext pg fin mh pi)
          = (false, some "Peer Influence must be one of: Negative, Neutral, Positive")) ∧
      ((0 ≤ att ∧ att ≤ 100) → (0 ≤ sh ∧ sh ≤ 24) → (0 ≤ sl ∧ sl ≤ 24) →
        fam ∈ ["Low", "Medium", "High"] → ext ∈ ["None", "Moderate", "High"] →
        pg ∈ ["Poor", "Average", "Good", "Excellent"] →
        fin ∈ ["Struggling", "Stable", "Comfortable"] →
        mh ∈ ["Poor", "Fair", "Good", "Excellent"] →
        pi ∈ ["Negative", "Neutral", "Positive"] →
        validate_student_inputs (presentKwargs att sh sl fam ext pg fin mh pi)
          = (true, none))) := by
  constructor
  · intro k hex
    rcases h1 : k.attendance with _ | att
    · exact ⟨"attendance", by simp [required_fields], by simp [fieldAbsent, h1],
        by simp only [validate_student_inputs, h1]; rfl⟩
    rcases h2 : k.study_hours with _ | sh
    · exact ⟨"study_hours", by simp [required_fields], by simp [fieldAbsent, h2],
        by simp only [validate_student_inputs, h1, h2]; rfl⟩
    rcases h3 : k.sleep_hours with _ | sl
    · exact ⟨"sleep_hours", by simp [required_fields], by simp [fieldAbsent, h3],
        by simp only [validate_student_inputs, h1, h2, h3]; rfl⟩
    rcases h4 : k.family_support with _ | fam
    · exact ⟨"family_support", by simp [required_fields], by simp [fieldAbsent, h4],
        by simp only [validate_student_inputs, h1, h2, h3, h4]; rfl⟩
    rcases h5 : k.extracurricular with _ | ext
    · exact ⟨"extracurricular", by simp [required_fields], by simp [fieldAbsent, h5],
        by simp only [validate_student_inputs, h1, h2, h3, h4, h5]; rfl⟩
    rcases h6 : k.previous_grades with _ | pg
    · exact ⟨"previous_grades", by simp [required_fields], by simp [fieldAbsent, h6],
        by simp only [validate_student_inputs, h1, h2, h3, h4, h5, h6]; rfl⟩
    rcases h7 : k.financial_status with _ | fin
    · exact ⟨"financial_status", by simp [required_fields], by simp [fieldAbsent, h7],
        by simp only [validate_student_inputs, h1, h2, h3, h4, h5, h6, h7]; rfl⟩
    rcases h8 : k.mental_health with _ | mh
    · exact ⟨"mental_health", by simp [required_fields], by simp [fieldAbsent, h8],
        by simp only [validate_student_inputs, h1, h2, h3, h4, h5, h6, h7, h8]; rfl⟩
    rcases h9 : k.peer_influence with _ | pi
    · exact ⟨"peer_influence", by simp [required_fields], by simp [fieldAbsent, h9],
        by simp only [validate_student_inputs, h1, h2, h3, h4, h5, h6, h7, h8, h9]; rfl⟩
    exfalso
    obtain ⟨f, hf, habs⟩ := hex
    simp only [required_fields, List.mem_cons, List.not_mem_nil, or_false] at hf
    rcases hf with rfl | rfl | rfl | rfl | rfl | rfl | rfl | rfl | rfl <;>
      simp [fieldAbsent, h1, h2, h3, h4, h5, h6, h7, h8, h9] at habs
  · intro att sh sl fam ext pg fin mh pi
    refine ⟨?_, ?_, ?_, ?_, ?_, ?_, ?_, ?_, ?_, ?_⟩
    · intro hr
      simp only [validate_student_inputs, presentKwargs]
      rw [if_pos hr]
    · intro hr1 hr
      simp only [validate_student_inputs, presentKwargs]
      rw [if_neg (not_not_intro hr1), if_pos hr]
    · intro hr1 hr2 hr
      simp only [validate_student_inputs, presentKwargs]
      rw [if_neg (not_not_intro hr1), if_neg (not_not_intro hr2), if_pos hr]
    · intro hr1 hr2 hr3 hm
      simp only [validate_student_inputs, presentKwargs, validOptions_family_support]
      rw [if_neg (not_not_intro hr1), if_neg (not_not_intro hr2),
        if_neg (not_not_intro hr3), if_pos hm, categoryMsg_family_support]
    · intro hr1 hr2 hr3 hm4 hm
      simp only [validate_student_inputs, presentKwargs, validOptions_family_support,
        validOptions_extracurricular]
      rw [if_neg (not_not_intro hr1), if_neg (not_not_intro hr2),
        if_neg (not_not_intro hr3), if_neg (not_not_intro hm4), if_pos hm,
        categoryMsg_extracurricular]
    · intro hr1 hr2 hr3 hm4 hm5 hm
      simp only [validate_student_inputs, presentKwargs, validOptions_family_support,
        validOptions_extracurricular, validOptions_previous_grades]
      rw [if_neg (not_not_intro hr1), if_neg (not_not_intro hr2),
        if_neg (not_not_intro hr3), if_neg (not_not_intro hm4),
        if_neg (not_not_intro hm5), if_pos hm, categoryMsg_previous_grades]
    · intro hr1 hr2 hr3 hm4 hm5 hm6 hm
      simp only [validate_student_inputs, presentKwargs, validOptions_family_support,
        validOptions_extracurricular, validOptions_previous_grades,
        validOptions_financial_status]
      rw [if_neg (not_not_intro hr1), if_neg (not_not_intro hr2),
        if_neg (not_not_intro hr3), if_neg (not_not_intro hm4),
        if_neg (not_not_intro hm5), if_neg (not_not_intro hm6), if_pos hm,
        categoryMsg_financial_status]
    · intro hr1 hr2 hr3 hm4 hm5 hm6 hm7 hm
      simp only [validate_student_inputs, presentKwargs, validOptions_family_support,
        validOptions_extracurricular, validOptions_previous_grades,
        validOptions_financial_status, validOptions_mental_health]
      rw [if_neg (not_not_intro hr1), if_neg (not_not_intro hr2),
        if_neg (not_not_intro hr3), if_neg (not_not_intro hm4),
        if_neg (not_not_intro hm5), if_neg (not_not_intro hm6),
        if_neg (not_not_intro hm7), if_pos hm, categoryMsg_mental_health]
    · intro hr1 hr2 hr3 hm4 hm5 hm6 hm7 hm8 hm
      simp only [validate_student_inputs, presentKwargs, validOptions_family_support,
        validOptions_extracurricular, validOptions_previous_grades,
        validOptions_financial_status, validOptions_mental_health,
        validOptions_peer_influence]
      rw [if_neg (not_not_intro hr1), if_neg (not_not_intro hr2),
        if_neg (not_not_intro hr3), if_neg (not_not_intro hm4),
        if_neg (not_not_intro hm5), if_neg (not_not_intro hm6),
        if_neg (not_not_intro hm7), if_neg (not_not_intro hm8), if_pos hm,
        categoryMsg_peer_influence]
    · intro hr1 hr2 hr3 hm4 hm5 hm6 hm7 hm8 hm9
      simp only [validate_student_inputs, presentKwargs, validOptions_family_support,
        validOptions_extracurricular, validOptions_previous_grades,
        validOptions_financial_status, validOptions_mental_health,
        validOptions_peer_influence]
      rw [if_neg (not_not_intro hr1), if_neg (not_not_intro hr2),
        if_neg (not_not_intro hr3), if_neg (not_not_intro hm4),
        if_neg (not_not_intro hm5), if_neg (not_not_intro hm6),
        if_neg (not_not_intro hm7), if_neg (not_not_intro hm8),
        if_neg (not_not_intro hm9)]

/-- C8 witness: attendance = 150 is rejected naming attendance,
family_support = "Medium-ish" is rejected listing Low, Medium, High, and a
fully valid kwargs dict is accepted with `(true, none)`. -/
theorem validate_student_inputs_spec_witness :
    validate_student_inputs
        (presentKwargs 150 3 7 "High" "Moderate" "Good" "Stable" "Good" "Positive")
      = (false, some "Attendance must be between 0 and 100%") ∧
    validate_student_inputs
        (presentKwargs 85 3 7 "Medium-ish" "Moderate" "Good" "Stable" "Good" "Positive")
      = (false, some "Family Support must be one of: Low, Medium, High") ∧
    validate_student_inputs
        (presentKwargs 85 3 7 "High" "Moderate" "Good" "Stable" "Good" "Positive")
      = (true, none) := by
  refine ⟨?_, ?_, ?_⟩
  · exact (validate_student_inputs_spec.2 150 3 7
      "High" "Moderate" "Good" "Stable" "Good" "Positive").1 (by norm_num)
  · exact (validate_student_inputs_spec.2 85 3 7
      "Medium-ish" "Moderate" "Good" "Stable" "Good" "Positive").2.2.2.1
      (by norm_num) (by norm_num) (by norm_num) (by decide)
  · exact (validate_student_inputs_spec.2 85 3 7
      "High" "Moderate" "Good" "Stable" "Good" "Positive").2.2.2.2.2.2.2.2.2
      (by norm_num) (by norm_num) (by norm_num) (by decide) (by decide)
      (by decide) (by decide) (by decide) (by decide)

/-! ## `components/results.py`: recommendation selection -/

/-- The observable outcome of `render_recommendations`: either the
all-clear success banner, or the list of focus factors that get
recommendation sections. -/
inductive RecOutput where
  | allClear : RecOutput
  | focus : List String → RecOutput
deriving DecidableEq

/-- `results.render_recommendations` selection logic: collect the factors
with score < 0.5 in dict insertion order; if none, show the all-clear
banner; otherwise show sections for the first three low factors. -/
def render_recommendations (factor_scores : List (String × ℚ)) : RecOutput :=
  let low_factors := (factor_scores.filter (fun p => decide (p.2 < 0.5))).map Prod.fst
  if low_factors = [] then RecOutput.allClear
  else RecOutput.focus (low_factors.take 3)

/-- C9 counterexample: with insertion order attendance (0.4) before
study_hours (0.1), the code presents attendance first — insertion order,
not ascending score order (which would put study_hours first). -/
theorem render_recommendations_counterexample :
    render_recommendations [("attendance", 0.4), ("study_hours", 0.1)]
        = RecOutput.focus ["attendance", "study_hours"] ∧
    render_recommendations [("attendance", 0.4), ("study_hours", 0.1)]
        ≠ RecOutput.focus ["study_hours", "attendance"] := by
  have he : render_recommendations [("attendance", 0.4), ("study_hours", 0.1)]
      = RecOutput.focus ["attendance", "study_hours"] := by
    norm_num [render_recommendations, List.filter]
    intro h
    exact absurd h (by simp)
  refine ⟨he, ?_⟩
  rw [he]
  simp

/-- C9 (amended): the selector produces guidance exactly for the factors
with score < 0.5, in the insertion order of the factor-scores dict (not
sorted by ascending score), limited to the first 3; when no factor is
below the threshold it signals the distinguished all-clear banner instead
of an empty list. -/
theorem render_recommendations_spec (l : List (String × ℚ)) :
    (render_recommendations l = RecOutput.allClear ↔ ∀ p ∈ l, ¬(p.2 < 0.5)) ∧
    (∀ fl, render_recommendations l = RecOutput.focus fl →
      fl = ((l.filter (fun p => decide (p.2 < 0.5))).map Prod.fst).take 3 ∧
      fl ≠ [] ∧ fl.length ≤ 3 ∧
      ∀ f ∈ fl, ∃ p ∈ l, p.1 = f ∧ p.2 < 0.5) := by
  by_cases hc : ((l.filter (fun p => decide (p.2 < 0.5))).map Prod.fst) = []
  · have hres : render_recommendations l = RecOutput.allClear := by
      simp only [render_recommendations]
      rw [if_pos hc]
    refine ⟨⟨fun _ => ?_, fun _ => hres⟩, ?_⟩
    · intro p hp hlt
      have hmem : p ∈ l.filter (fun p => decide (p.2 < 0.5)) :=
        List.mem_filter.mpr ⟨hp, by simpa using hlt⟩
      have : p.1 ∈ (l.filter (fun p => decide (p.2 < 0.5))).map Prod.fst :=
        List.mem_map_of_mem Prod.fst hmem
      rw [hc] at this
      exact absurd this (List.not_mem_nil _)
    · intro fl hfl
      rw [hres] at hfl
      exact absurd hfl (by simp)
  · have hres : render_recommendations l
        = RecOutput.focus
            (((l.filter (fun p => decide (p.2 < 0.5))).map Prod.fst).take 3) := by
      simp only [render_recommendations]
      rw [if_neg hc]
    refine ⟨⟨fun hres' => ?_, fun hall => ?_⟩, ?_⟩
    · rw [hres] at hres'
      exact absurd hres' (by simp)
    · exfalso
      apply hc
      rw [List.map_eq_nil_iff, List.filter_eq_nil_iff]
      intro p hp
      simpa using hall p hp
    · intro fl hfl
      rw [hres] at hfl
      have hfleq : fl
          = ((l.filter (fun p => decide (p.2 < 0.5))).map Prod.fst).take 3 := by
        have := hfl
        simp only [RecOutput.focus.injEq] at this
        exact this.symm
      refine ⟨hfleq, ?_, ?_, ?_⟩
      · rw [hfleq]
        rw [Ne, List.take_eq_nil_iff]
        push_neg
        exact ⟨by norm_num, hc⟩
      · rw [hfleq, List.length_take]
        exact Nat.min_le_left _ _
      · intro f hf
        rw [hfleq] at hf
        have hmem : f ∈ (l.filter (fun p => decide (p.2 < 0.5))).map Prod.fst :=
          List.mem_of_mem_take hf
        rcases List.mem_map.mp hmem with ⟨p, hpf, hpe⟩
        rcases List.mem_filter.mp hpf with ⟨hpl, hplt⟩
        exact ⟨p, hpl, hpe, by simpa using hplt⟩

/-- C9 witness: the amended spec applied to a concrete dict with one low
factor, and to a concrete all-good dict. -/
theorem render_recommendations_spec_witness :
    (["study_hours"] ≠ ([] : List String) ∧ (["study_hours"] : List String).length ≤ 3) ∧
    (render_recommendations [("attendance", 0.9)] = RecOutput.allClear
      ↔ ∀ p ∈ [(("attendance" : String), (0.9 : ℚ))], ¬(p.2 < 0.5)) := by
  constructor
  · have h := (render_recommendations_spec
        [("attendance", 0.9), ("study_hours", 0.2)]).2 ["study_hours"]
      (by norm_num [render_recommendations, List.filter])
    exact ⟨h.2.1, h.2.2.1⟩
  · exact (render_recommendations_spec [("attendance", 0.9)]).1

end EduPulse
